import Mathlib

/-!
Shallow embedding of the monitoring probe `main.go`.

The program polls a URL, parses the response body as seven comma-separated
numeric fields into a `ServerStats` record, and prints threshold warnings.
We embed the pure core: the body parser (`fetchAndParseStats` after the HTTP
transport succeeded with a given body), the threshold checker `checkMetrics`,
and the poll loop's failure counter.  The HTTP front end (transport errors,
non-200 statuses, body-read failures) is outside the embedding: the parser is
modelled as a function of the body it received.

Numeric modelling choices:
* Go `float64` values are modelled as exact rationals (`ℚ`).  Decimal
  literals parse to their exact rational value; IEEE-754 rounding, the
  special values Inf/NaN, hexadecimal float literals and the overflow-to-Inf
  range error of `strconv.ParseFloat` are abstracted away.
* Go `int64` values are modelled as `ℤ`; `strconv.ParseInt(s, 10, 64)`'s
  range check is modelled exactly, and every arithmetic operation performed
  on `int64` values in `checkMetrics` is wrapped through two's-complement
  wrap-around (`wrap64`), as Go defines signed overflow to wrap.
-/

attribute [local semireducible] Rat.add Rat.mul Rat.inv Rat.sub Rat.ofScientific

instance {ε α : Type} [DecidableEq ε] [DecidableEq α] : DecidableEq (Except ε α) := fun a b =>
  match a, b with
  | .ok x, .ok y => if h : x = y then .isTrue (by rw [h]) else .isFalse (by simp [h])
  | .error x, .error y => if h : x = y then .isTrue (by rw [h]) else .isFalse (by simp [h])
  | .ok _, .error _ => .isFalse (by simp)
  | .error _, .ok _ => .isFalse (by simp)

/-- `unicode.IsSpace` as used by `strings.TrimSpace`: ASCII whitespace plus
the Unicode space code points. -/
def isGoSpace (c : Char) : Bool :=
  let n := c.toNat
  n == 0x20 || (0x09 ≤ n && n ≤ 0x0D) || n == 0x85 || n == 0xA0 ||
  n == 0x1680 || (0x2000 ≤ n && n ≤ 0x200A) || n == 0x2028 || n == 0x2029 ||
  n == 0x202F || n == 0x205F || n == 0x3000

/-- `strings.TrimSpace`: drop leading and trailing whitespace. -/
def trimSpace (s : List Char) : List Char :=
  ((s.dropWhile isGoSpace).reverse.dropWhile isGoSpace).reverse

/-- `strings.Split(s, ",")`: split on every comma; the empty string yields
one empty field, so the result is never the empty list. -/
def splitComma : List Char → List (List Char)
  | [] => [[]]
  | c :: rest =>
    if c = ',' then
      [] :: splitComma rest
    else
      match splitComma rest with
      | [] => [[c]]
      | f :: fs => (c :: f) :: fs

/-- Value of a digit string, assuming every character is a decimal digit. -/
def digitsToNat (cs : List Char) : ℕ :=
  cs.foldl (fun acc c => 10 * acc + (c.toNat - 48)) 0

/-- Magnitude part of `strconv.ParseInt(s, 10, 64)`: after the optional sign
was stripped there must be at least one character and all characters must be
decimal digits (underscores are rejected since the base is given explicitly),
and the resulting value must fit in a signed 64-bit integer, taking the sign
into account.  Out-of-range values are errors, as the caller treats
`ErrRange` as a failure. -/
def parseIntMag (ds : List Char) (neg : Bool) : Option ℤ :=
  if ds.isEmpty || !ds.all Char.isDigit then none
  else if neg then
    if digitsToNat ds ≤ 2 ^ 63 then some (-(digitsToNat ds : ℤ)) else none
  else
    if digitsToNat ds ≤ 2 ^ 63 - 1 then some (digitsToNat ds : ℤ) else none

/-- `strconv.ParseInt(s, 10, 64)`: optional single leading sign, then a
non-empty run of decimal digits, range-checked to `int64`. -/
def parseIntGo (s : List Char) : Option ℤ :=
  match s with
  | [] => none
  | c :: rest =>
    if c = '+' then parseIntMag rest false
    else if c = '-' then parseIntMag rest true
    else parseIntMag (c :: rest) false

/-- A non-empty all-digit run, or nothing. -/
def expDigits (ds : List Char) : Option ℕ :=
  if ds.isEmpty || !ds.all Char.isDigit then none else some (digitsToNat ds)

/-- Exponent part of a float literal: optionally signed non-empty digit run. -/
def parseExp (cs : List Char) : Option ℤ :=
  match cs with
  | [] => none
  | c :: r =>
    if c = '+' then (expDigits r).map (fun n => (n : ℤ))
    else if c = '-' then (expDigits r).map (fun n => -(n : ℤ))
    else (expDigits (c :: r)).map (fun n => (n : ℤ))

/-- The fractional digits of a float literal, given what follows the integer
digits: the digit run after a leading dot, else nothing. -/
def fracPart (rest1 : List Char) : List Char :=
  match rest1 with
  | [] => []
  | c :: r => if c = '.' then r.takeWhile Char.isDigit else []

/-- What remains of a float literal after the optional dot and fractional
digits. -/
def afterFrac (rest1 : List Char) : List Char :=
  match rest1 with
  | [] => []
  | c :: r => if c = '.' then r.dropWhile Char.isDigit else c :: r

/-- The optional `e`/`E` exponent suffix applied to the mantissa value; an
empty remainder means no exponent, anything else must be a well-formed
exponent. -/
def applyExp (mant : ℚ) (rest2 : List Char) : Option ℚ :=
  match rest2 with
  | [] => some mant
  | c :: r =>
    if c = 'e' ∨ c = 'E' then (parseExp r).map (fun e => mant * 10 ^ e)
    else none

/-- Unsigned decimal float literal: digits, optional `.` and more digits
(at least one digit overall), optional `e`/`E` exponent.  The value is the
exact rational the literal denotes. -/
def parseFloatMag (cs : List Char) : Option ℚ :=
  let ip := cs.takeWhile Char.isDigit
  let rest1 := cs.dropWhile Char.isDigit
  let fp := fracPart rest1
  if ip.isEmpty && fp.isEmpty then none
  else applyExp ((digitsToNat ip : ℚ) + (digitsToNat fp : ℚ) / 10 ^ fp.length) (afterFrac rest1)

/-- `strconv.ParseFloat(s, 64)`, restricted to finite decimal literals, with
the exact rational value (IEEE rounding, Inf/NaN, hex-float literals and the
overflow `ErrRange` case are outside the model). -/
def parseFloatGo (s : List Char) : Option ℚ :=
  match s with
  | [] => none
  | c :: rest =>
    if c = '+' then parseFloatMag rest
    else if c = '-' then (parseFloatMag rest).map Neg.neg
    else parseFloatMag (c :: rest)

/-- The `parseFloat` closure of `fetchAndParseStats`: trim the field, then
convert. -/
def parseFloatField (s : List Char) : Option ℚ :=
  parseFloatGo (trimSpace s)

/-- The `parseInt` closure of `fetchAndParseStats`: trim the field, then
convert. -/
def parseIntField (s : List Char) : Option ℤ :=
  parseIntGo (trimSpace s)

/-- The `ServerStats` record of `main.go`. -/
structure ServerStats where
  loadAvg : ℚ
  totalMem : ℤ
  usedMem : ℤ
  totalDisk : ℤ
  usedDisk : ℤ
  totalNet : ℤ
  usedNet : ℤ
deriving DecidableEq, Repr

/-- Which field a conversion error names (the Russian messages of
`fetchAndParseStats` name them Load Average, Total Memory, …). -/
inductive StatField where
  | loadAverage
  | totalMemory
  | usedMemory
  | totalDisk
  | usedDisk
  | totalNetwork
  | usedNetwork
deriving DecidableEq, Repr

/-- Errors of the parsing stage of `fetchAndParseStats`: wrong field count
(with the observed count), or a field that failed conversion. -/
inductive ParseError where
  | formatError (got : ℕ)
  | parseError (field : StatField)
deriving DecidableEq, Repr

/-- The field-conversion cascade of `fetchAndParseStats`, lines 94–118:
left-to-right, first failure wins, a record is built only when all seven
fields convert. -/
def parseFields (p0 p1 p2 p3 p4 p5 p6 : List Char) : Except ParseError ServerStats :=
  match parseFloatField p0 with
  | none => .error (.parseError .loadAverage)
  | some loadAvg =>
  match parseIntField p1 with
  | none => .error (.parseError .totalMemory)
  | some totalMem =>
  match parseIntField p2 with
  | none => .error (.parseError .usedMemory)
  | some usedMem =>
  match parseIntField p3 with
  | none => .error (.parseError .totalDisk)
  | some totalDisk =>
  match parseIntField p4 with
  | none => .error (.parseError .usedDisk)
  | some usedDisk =>
  match parseIntField p5 with
  | none => .error (.parseError .totalNetwork)
  | some totalNet =>
  match parseIntField p6 with
  | none => .error (.parseError .usedNetwork)
  | some usedNet =>
    .ok ⟨loadAvg, totalMem, usedMem, totalDisk, usedDisk, totalNet, usedNet⟩

/-- The field-count guard of `fetchAndParseStats`, lines 83–85: exactly 7
parts, else a format error carrying the observed count. -/
def parseParts (parts : List (List Char)) : Except ParseError ServerStats :=
  if h : parts.length = 7 then
    parseFields (parts.get ⟨0, by omega⟩) (parts.get ⟨1, by omega⟩)
      (parts.get ⟨2, by omega⟩) (parts.get ⟨3, by omega⟩)
      (parts.get ⟨4, by omega⟩) (parts.get ⟨5, by omega⟩)
      (parts.get ⟨6, by omega⟩)
  else
    .error (.formatError parts.length)

/-- The parsing stage of `fetchAndParseStats` as a function of the response
body it read: trim the body, split on commas, check the field count, convert
the fields. -/
def parseStats (body : List Char) : Except ParseError ServerStats :=
  parseParts (splitComma (trimSpace body))

/-- On exactly seven parts, `parseParts` is the field-conversion cascade. -/
theorem parseParts_seven (p0 p1 p2 p3 p4 p5 p6 : List Char) :
    parseParts [p0, p1, p2, p3, p4, p5, p6] = parseFields p0 p1 p2 p3 p4 p5 p6 := rfl

/-- On any other part count, `parseParts` reports the observed count. -/
theorem parseParts_wrong (parts : List (List Char)) (h : parts.length ≠ 7) :
    parseParts parts = .error (.formatError parts.length) := by
  unfold parseParts
  rw [dif_neg h]

example : parseStats " 1.5, 2 ,3,4,5,6,7 ".data = .ok ⟨3 / 2, 2, 3, 4, 5, 6, 7⟩ := by decide
example : parseStats "5.0,1000,850,1000,100,1000,100".data =
    .ok ⟨5, 1000, 850, 1000, 100, 1000, 100⟩ := by decide
example : parseStats "1,2,3".data = .error (.formatError 3) := by decide
example : parseStats "".data = .error (.formatError 1) := by decide
example : parseStats "-1.0,-1,-1,-1,-1,-1,-1".data = .ok ⟨-1, -1, -1, -1, -1, -1, -1⟩ := by
  decide
example : parseStats "1.0,x,y,3,4,5,6".data = .error (.parseError .totalMemory) := by decide
example : parseStats "1.0,9223372036854775808,2,3,4,5,6".data =
    .error (.parseError .totalMemory) := by decide
example : parseStats "1.0,-9223372036854775808,2,3,4,5,6".data =
    .ok ⟨1, -9223372036854775808, 2, 3, 4, 5, 6⟩ := by decide
example : parseFloatGo "2.5e3".data = some 2500 := by decide
example : parseFloatGo "2.5e-1".data = some (1 / 4) := by decide
example : parseFloatGo ".5".data = some (1 / 2) := by decide
example : parseFloatGo "5.".data = some 5 := by decide
example : parseFloatGo ".".data = none := by decide
example : parseFloatGo "1e".data = none := by decide

/-! ## Threshold checker -/

/-- `loadAvgThreshold` of `main.go`. -/
def loadAvgThreshold : ℚ := 30

/-- `memUsageThreshold` of `main.go` (0.80). -/
def memUsageThreshold : ℚ := 4 / 5

/-- `diskUsageThreshold` of `main.go` (0.90). -/
def diskUsageThreshold : ℚ := 9 / 10

/-- `netUsageThreshold` of `main.go` (0.90). -/
def netUsageThreshold : ℚ := 9 / 10

/-- Two's-complement wrap-around of a 64-bit signed operation's exact result,
as Go defines signed-integer overflow. -/
def wrap64 (x : ℤ) : ℤ :=
  (x + 2 ^ 63) % 2 ^ 64 - 2 ^ 63

/-- The integer `fmt.Printf "%.0f"` prints: nearest integer, ties to even. -/
def fmtRound0 (q : ℚ) : ℤ :=
  if q - ⌊q⌋ < 1 / 2 then ⌊q⌋
  else if 1 / 2 < q - ⌊q⌋ then ⌊q⌋ + 1
  else if ⌊q⌋ % 2 = 0 then ⌊q⌋ else ⌊q⌋ + 1

/-- One warning line of `checkMetrics`.  Each constructor carries the numeric
value the corresponding `fmt.Printf` receives: the raw load average (`%g`),
the whole-number memory-usage percentage (`%.0f` of `memUsage*100`, rounded
to the nearest integer), the free disk mebibytes (`%d`, an `int64`), and the
free-bandwidth value in Mbit/s handed to `%.2f` (the two-decimal formatting
itself is presentation and is not modelled). -/
inductive Warning where
  | loadAvgHigh (loadAvg : ℚ)
  | memUsageHigh (percent : ℤ)
  | diskSpaceLow (mbLeft : ℤ)
  | netBandwidthHigh (mbpsAvailable : ℚ)
deriving DecidableEq, Repr

/-- Is this the load-average warning? -/
def Warning.isLoad : Warning → Bool
  | .loadAvgHigh _ => true
  | _ => false

/-- Is this the memory warning? -/
def Warning.isMem : Warning → Bool
  | .memUsageHigh _ => true
  | _ => false

/-- Is this the disk warning? -/
def Warning.isDisk : Warning → Bool
  | .diskSpaceLow _ => true
  | _ => false

/-- Is this the network warning? -/
def Warning.isNet : Warning → Bool
  | .netBandwidthHigh _ => true
  | _ => false

/-- `checkMetrics` of `main.go`: four independent rules, each guarded by a
positive denominator, emitting its warning when the strict threshold is
exceeded.  `float64` ratios are modelled as exact rationals; the `int64`
subtractions and the multiplication by 8 wrap (`wrap64`); `int64` division
truncates toward zero (`Int.tdiv`), as in Go. -/
def checkMetrics (stats : ServerStats) : List Warning :=
  (if loadAvgThreshold < stats.loadAvg then [.loadAvgHigh stats.loadAvg] else []) ++
  (if 0 < stats.totalMem then
    (let memUsage : ℚ := (stats.usedMem : ℚ) / (stats.totalMem : ℚ)
    if memUsageThreshold < memUsage then [.memUsageHigh (fmtRound0 (memUsage * 100))] else [])
  else []) ++
  (if 0 < stats.totalDisk then
    (let diskUsage : ℚ := (stats.usedDisk : ℚ) / (stats.totalDisk : ℚ)
    if diskUsageThreshold < diskUsage then
      let freeDiskBytes := wrap64 (stats.totalDisk - stats.usedDisk)
      let freeDiskMb := freeDiskBytes.tdiv 1048576
      [.diskSpaceLow freeDiskMb]
    else [])
  else []) ++
  (if 0 < stats.totalNet then
    (let netUsage : ℚ := (stats.usedNet : ℚ) / (stats.totalNet : ℚ)
    if netUsageThreshold < netUsage then
      let freeNetBps := wrap64 (stats.totalNet - stats.usedNet)
      let freeNetMbps : ℚ := (wrap64 (freeNetBps * 8) : ℚ) / 1000000
      [.netBandwidthHigh freeNetMbps]
    else [])
  else [])

/-- `x` is representable as a signed 64-bit integer. -/
def inInt64 (x : ℤ) : Prop :=
  -(2 ^ 63) ≤ x ∧ x ≤ 2 ^ 63 - 1

instance : DecidablePred inInt64 := fun x =>
  inferInstanceAs (Decidable (-(2 ^ 63) ≤ x ∧ x ≤ 2 ^ 63 - 1))

/-- All integer fields of the record fit in `int64`, as they do for every
record the Go program builds. -/
def ServerStats.wf (s : ServerStats) : Prop :=
  inInt64 s.totalMem ∧ inInt64 s.usedMem ∧ inInt64 s.totalDisk ∧ inInt64 s.usedDisk ∧
  inInt64 s.totalNet ∧ inInt64 s.usedNet

instance (s : ServerStats) : Decidable s.wf :=
  inferInstanceAs (Decidable (_ ∧ _ ∧ _ ∧ _ ∧ _ ∧ _))

/-! ## Poller -/

/-- `maxConsecutiveErrors` of `main.go`. -/
def maxConsecutiveErrors : ℕ := 3

/-- `consecutiveErrors := 0` at the top of `main`. -/
def initialConsecutiveErrors : ℕ := 0

/-- What one iteration of the poll loop writes: the attempt number of the
stderr diagnostic line (present exactly when the poll failed), whether the
"Unable to fetch server statistic." notice went to stdout, and the warning
lines of `checkMetrics` (present exactly when the poll succeeded). -/
structure CycleOutput where
  errorLine : Option ℕ
  unavailableNotice : Bool
  warnings : List Warning
deriving DecidableEq, Repr

/-- One iteration of the `for` loop of `main`, given the counter and the
outcome of `fetchAndParseStats` (`none` = error): on error, print the
diagnostic with attempt number `consecutiveErrors+1`, increment the counter
and print the notice when the incremented counter reaches the threshold; on
success, reset the counter and run `checkMetrics`. -/
def pollCycle (consecutiveErrors : ℕ) (result : Option ServerStats) :
    ℕ × CycleOutput :=
  match result with
  | none =>
    let next := consecutiveErrors + 1
    (next, ⟨some next, decide (maxConsecutiveErrors ≤ next), []⟩)
  | some stats => (0, ⟨none, false, checkMetrics stats⟩)

/-- Run the poll loop over a finite prefix of outcomes, returning the final
counter and the per-cycle outputs in order. -/
def runPoll (consecutiveErrors : ℕ) : List (Option ServerStats) → ℕ × List CycleOutput
  | [] => (consecutiveErrors, [])
  | r :: rest =>
    let step := pollCycle consecutiveErrors r
    let tail := runPoll step.1 rest
    (tail.1, step.2 :: tail.2)

example : runPoll initialConsecutiveErrors [none, none, none] =
    (3, [⟨some 1, false, []⟩, ⟨some 2, false, []⟩, ⟨some 3, true, []⟩]) := by decide
example : runPoll initialConsecutiveErrors [none, none, none, none] =
    (4, [⟨some 1, false, []⟩, ⟨some 2, false, []⟩, ⟨some 3, true, []⟩, ⟨some 4, true, []⟩]) := by
  decide

/-! ## Helper lemmas -/

/-- A value already in `int64` range is unchanged by the wrap. -/
theorem wrap64_id (x : ℤ) (h1 : -(2 ^ 63) ≤ x) (h2 : x ≤ 2 ^ 63 - 1) : wrap64 x = x := by
  unfold wrap64
  omega

/-- The memory warnings of `checkMetrics`, isolated from the other rules. -/
theorem checkMetrics_filter_mem (s : ServerStats) :
    (checkMetrics s).filter Warning.isMem =
      (if 0 < s.totalMem then
        (if memUsageThreshold < (s.usedMem : ℚ) / (s.totalMem : ℚ) then
          [Warning.memUsageHigh (fmtRound0 ((s.usedMem : ℚ) / (s.totalMem : ℚ) * 100))]
        else [])
      else []) := by
  simp only [checkMetrics, List.filter_append]
  split_ifs <;>
    simp [Warning.isLoad, Warning.isMem, Warning.isDisk, Warning.isNet]

/-- The disk warnings of `checkMetrics`, isolated from the other rules. -/
theorem checkMetrics_filter_disk (s : ServerStats) :
    (checkMetrics s).filter Warning.isDisk =
      (if 0 < s.totalDisk then
        (if diskUsageThreshold < (s.usedDisk : ℚ) / (s.totalDisk : ℚ) then
          [Warning.diskSpaceLow ((wrap64 (s.totalDisk - s.usedDisk)).tdiv 1048576)]
        else [])
      else []) := by
  simp only [checkMetrics, List.filter_append]
  split_ifs <;>
    simp [Warning.isLoad, Warning.isMem, Warning.isDisk, Warning.isNet]

/-- The network warnings of `checkMetrics`, isolated from the other rules. -/
theorem checkMetrics_filter_net (s : ServerStats) :
    (checkMetrics s).filter Warning.isNet =
      (if 0 < s.totalNet then
        (if netUsageThreshold < (s.usedNet : ℚ) / (s.totalNet : ℚ) then
          [Warning.netBandwidthHigh
            ((wrap64 (wrap64 (s.totalNet - s.usedNet) * 8) : ℤ) / (1000000 : ℚ))]
        else [])
      else []) := by
  simp only [checkMetrics, List.filter_append]
  split_ifs <;>
    simp [Warning.isLoad, Warning.isMem, Warning.isDisk, Warning.isNet]

/-- Every integer `parseIntMag` accepts is in `int64` range. -/
theorem parseIntMag_range (ds : List Char) (neg : Bool) (v : ℤ)
    (h : parseIntMag ds neg = some v) : inInt64 v := by
  unfold parseIntMag at h
  split_ifs at h with h1 h2 h3 h4
  all_goals simp only [Option.some.injEq] at h
  all_goals subst h
  all_goals exact ⟨by omega, by omega⟩

/-- Every integer `parseIntGo` accepts is in `int64` range. -/
theorem parseIntGo_range (s : List Char) (v : ℤ) (h : parseIntGo s = some v) : inInt64 v := by
  cases s with
  | nil => simp [parseIntGo] at h
  | cons c rest =>
    simp only [parseIntGo] at h
    split_ifs at h <;> exact parseIntMag_range _ _ _ h

/-- A record built by the field-conversion cascade has all integer fields in
`int64` range. -/
theorem parseFields_ok_wf (p0 p1 p2 p3 p4 p5 p6 : List Char) (r : ServerStats)
    (h : parseFields p0 p1 p2 p3 p4 p5 p6 = .ok r) : r.wf := by
  unfold parseFields at h
  cases h0 : parseFloatField p0 with
  | none => rw [h0] at h; exact absurd h (by simp)
  | some la =>
  rw [h0] at h
  cases h1 : parseIntField p1 with
  | none => rw [h1] at h; exact absurd h (by simp)
  | some v1 =>
  rw [h1] at h
  cases h2 : parseIntField p2 with
  | none => rw [h2] at h; exact absurd h (by simp)
  | some v2 =>
  rw [h2] at h
  cases h3 : parseIntField p3 with
  | none => rw [h3] at h; exact absurd h (by simp)
  | some v3 =>
  rw [h3] at h
  cases h4 : parseIntField p4 with
  | none => rw [h4] at h; exact absurd h (by simp)
  | some v4 =>
  rw [h4] at h
  cases h5 : parseIntField p5 with
  | none => rw [h5] at h; exact absurd h (by simp)
  | some v5 =>
  rw [h5] at h
  cases h6 : parseIntField p6 with
  | none => rw [h6] at h; exact absurd h (by simp)
  | some v6 =>
  rw [h6] at h
  simp only [Except.ok.injEq] at h
  subst h
  exact ⟨parseIntGo_range _ _ h1, parseIntGo_range _ _ h2, parseIntGo_range _ _ h3,
    parseIntGo_range _ _ h4, parseIntGo_range _ _ h5, parseIntGo_range _ _ h6⟩

/-! ## Claims -/

/-- C1: for every response body that, after trimming surrounding whitespace,
splits on commas into exactly 7 fields where field 0 (after per-field
trimming) is a valid floating-point literal and fields 1–6 are valid 64-bit
signed decimal integers, the parser returns a complete record whose fields
equal the parsed values in positional order, with no error. -/
theorem parse_seven_numeric_fields_ok
    (body p0 p1 p2 p3 p4 p5 p6 : List Char) (la : ℚ) (v1 v2 v3 v4 v5 v6 : ℤ)
    (hsplit : splitComma (trimSpace body) = [p0, p1, p2, p3, p4, p5, p6])
    (h0 : parseFloatField p0 = some la)
    (h1 : parseIntField p1 = some v1) (h2 : parseIntField p2 = some v2)
    (h3 : parseIntField p3 = some v3) (h4 : parseIntField p4 = some v4)
    (h5 : parseIntField p5 = some v5) (h6 : parseIntField p6 = some v6) :
    parseStats body = .ok ⟨la, v1, v2, v3, v4, v5, v6⟩ := by
  simp [parseStats, hsplit, parseParts_seven, parseFields, h0, h1, h2, h3, h4, h5, h6]

/-- C1 witness: a concrete well-formed body, with whitespace around the body
and inside fields, parses to the expected record. -/
theorem parse_seven_numeric_fields_ok_witness :
    parseStats " 1.5, 2 ,3,4,5,6,7 ".data = .ok ⟨3 / 2, 2, 3, 4, 5, 6, 7⟩ :=
  parse_seven_numeric_fields_ok _ "1.5".data " 2 ".data "3".data "4".data "5".data
    "6".data "7".data _ _ _ _ _ _ _ (by decide) (by decide) (by decide) (by decide)
    (by decide) (by decide) (by decide) (by decide)

/-- C2: for every response body whose trimmed form splits on commas into a
field count other than 7, parsing fails with a format error reporting the
observed count, and no record is produced. -/
theorem wrong_field_count_format_error (body : List Char)
    (h : (splitComma (trimSpace body)).length ≠ 7) :
    parseStats body = .error (.formatError (splitComma (trimSpace body)).length) :=
  parseParts_wrong _ h

/-- C2 witness: a three-field body fails with a format error reporting 3. -/
theorem wrong_field_count_format_error_witness :
    parseStats "1,2,3".data = .error (.formatError 3) := by
  have h := wrong_field_count_format_error "1,2,3".data (by decide)
  simpa using h

/-- C3: for every 7-field body, the parser reports the first (leftmost)
field that fails conversion, whatever the contents of the later fields; no
partial record is returned. -/
theorem parse_fail_fast_first_error (body p0 p1 p2 p3 p4 p5 p6 : List Char)
    (hsplit : splitComma (trimSpace body) = [p0, p1, p2, p3, p4, p5, p6]) :
    (parseFloatField p0 = none →
      parseStats body = .error (.parseError .loadAverage)) ∧
    (∀ la, parseFloatField p0 = some la → parseIntField p1 = none →
      parseStats body = .error (.parseError .totalMemory)) ∧
    (∀ la v1, parseFloatField p0 = some la → parseIntField p1 = some v1 →
      parseIntField p2 = none →
      parseStats body = .error (.parseError .usedMemory)) ∧
    (∀ la v1 v2, parseFloatField p0 = some la → parseIntField p1 = some v1 →
      parseIntField p2 = some v2 → parseIntField p3 = none →
      parseStats body = .error (.parseError .totalDisk)) ∧
    (∀ la v1 v2 v3, parseFloatField p0 = some la → parseIntField p1 = some v1 →
      parseIntField p2 = some v2 → parseIntField p3 = some v3 →
      parseIntField p4 = none →
      parseStats body = .error (.parseError .usedDisk)) ∧
    (∀ la v1 v2 v3 v4, parseFloatField p0 = some la → parseIntField p1 = some v1 →
      parseIntField p2 = some v2 → parseIntField p3 = some v3 →
      parseIntField p4 = some v4 → parseIntField p5 = none →
      parseStats body = .error (.parseError .totalNetwork)) ∧
    (∀ la v1 v2 v3 v4 v5, parseFloatField p0 = some la → parseIntField p1 = some v1 →
      parseIntField p2 = some v2 → parseIntField p3 = some v3 →
      parseIntField p4 = some v4 → parseIntField p5 = some v5 →
      parseIntField p6 = none →
      parseStats body = .error (.parseError .usedNetwork)) := by
  refine ⟨?_, ?_, ?_, ?_, ?_, ?_, ?_⟩ <;> intros <;>
    simp [parseStats, hsplit, parseParts_seven, parseFields, *]

/-- C3 witness: in a body whose second and third fields are both invalid,
the error names the second field (the leftmost failure). -/
theorem parse_fail_fast_first_error_witness :
    parseStats "1.0,x,y,3,4,5,6".data = .error (.parseError .totalMemory) :=
  (parse_fail_fast_first_error _ "1.0".data "x".data "y".data "3".data "4".data
    "5".data "6".data (by decide)).2.1 1 (by decide) (by decide)

/-- C10: a response body that is empty or all whitespace trims to the empty
string, splits into one (empty) field, and therefore fails with the
format error reporting a count of 1 — not with a conversion error. -/
theorem blank_body_format_error (body : List Char)
    (h : ∀ c ∈ body, isGoSpace c) :
    parseStats body = .error (.formatError 1) := by
  have htrim : trimSpace body = [] := by
    have h1 : body.dropWhile isGoSpace = [] := List.dropWhile_eq_nil_iff.mpr h
    simp [trimSpace, h1]
  show parseParts (splitComma (trimSpace body)) = _
  rw [htrim]
  decide

/-- C10 witness: a whitespace-only body fails with a format error of count 1,
and so does the empty body. -/
theorem blank_body_format_error_witness :
    parseStats " \t\n ".data = .error (.formatError 1) ∧
    parseStats "".data = .error (.formatError 1) :=
  ⟨blank_body_format_error _ (by decide), blank_body_format_error _ (by decide)⟩

/-- C9 counterexample: a body of negative literals parses successfully into a
record with negative load average and negative integer fields, so the parser
does not enforce non-negativity. -/
theorem negative_fields_parse_cex :
    parseStats "-1.0,-1,-1,-1,-1,-1,-1".data = .ok ⟨-1, -1, -1, -1, -1, -1, -1⟩ ∧
    (-1 : ℚ) < 0 ∧ (-1 : ℤ) < 0 :=
  ⟨by decide, by norm_num, by norm_num⟩

/-- C9 (amended): every record the parser returns has its six integer fields
within the signed 64-bit range (the only range constraint the conversion
enforces); non-negativity is not checked, and bodies with negative fields
parse successfully. -/
theorem parsed_record_int64_range (body : List Char) (r : ServerStats)
    (h : parseStats body = .ok r) : r.wf := by
  unfold parseStats parseParts at h
  split at h
  · exact parseFields_ok_wf _ _ _ _ _ _ _ _ h
  · exact absurd h (by simp)

/-- C9 witness: the record parsed from a concrete body is in `int64` range. -/
theorem parsed_record_int64_range_witness :
    ServerStats.wf ⟨1, 2, 3, 4, 5, 6, 7⟩ :=
  parsed_record_int64_range "1.0,2,3,4,5,6,7".data _ (by decide)

/-- C4: a zero total skips the corresponding rule entirely: with
`totalMemory = 0` no memory warning is emitted, with `totalDisk = 0` no disk
warning is emitted (whatever `usedDisk` is), and with `totalNetCapacity = 0`
no network warning is emitted. -/
theorem zero_total_skips_rule (s : ServerStats) :
    (s.totalMem = 0 → (checkMetrics s).filter Warning.isMem = []) ∧
    (s.totalDisk = 0 → (checkMetrics s).filter Warning.isDisk = []) ∧
    (s.totalNet = 0 → (checkMetrics s).filter Warning.isNet = []) := by
  refine ⟨fun h => ?_, fun h => ?_, fun h => ?_⟩
  · rw [checkMetrics_filter_mem, if_neg (by omega)]
  · rw [checkMetrics_filter_disk, if_neg (by omega)]
  · rw [checkMetrics_filter_net, if_neg (by omega)]

/-- C4 witness: with `totalDisk = 0` and non-zero `usedDisk` the disk rule
stays silent. -/
theorem zero_total_skips_rule_witness :
    (checkMetrics ⟨0, 0, 5, 0, 5, 0, 5⟩).filter Warning.isDisk = [] :=
  (zero_total_skips_rule ⟨0, 0, 5, 0, 5, 0, 5⟩).2.1 rfl

/-- C5: with `totalMemory > 0`, the memory warning is emitted iff
`usedMemory/totalMemory > 0.80`, and it carries the usage as a whole-number
percentage. -/
theorem mem_warning_iff (s : ServerStats) (h : 0 < s.totalMem) :
    (checkMetrics s).filter Warning.isMem =
      (if memUsageThreshold < (s.usedMem : ℚ) / (s.totalMem : ℚ) then
        [Warning.memUsageHigh (fmtRound0 ((s.usedMem : ℚ) / (s.totalMem : ℚ) * 100))]
      else []) := by
  rw [checkMetrics_filter_mem, if_pos h]

/-- C5 witness: the record parsed from `"5.0,1000,850,1000,100,1000,100"`
yields a memory warning reporting 85 percent. -/
theorem mem_warning_iff_witness :
    parseStats "5.0,1000,850,1000,100,1000,100".data =
      .ok ⟨5, 1000, 850, 1000, 100, 1000, 100⟩ ∧
    (checkMetrics ⟨5, 1000, 850, 1000, 100, 1000, 100⟩).filter Warning.isMem =
      [Warning.memUsageHigh 85] := by
  constructor
  · decide
  · rw [mem_warning_iff ⟨5, 1000, 850, 1000, 100, 1000, 100⟩ (by decide)]
    decide

/-- C6: with `totalDisk > 0` (fields in `int64` range, as for every record
the program builds), the disk warning is emitted iff
`usedDisk/totalDisk > 0.90`, and it carries the free space in mebibytes,
`(totalDisk - usedDisk) / 1048576` with Go's truncated division. -/
theorem disk_warning_iff (s : ServerStats) (hw : s.wf) (h : 0 < s.totalDisk) :
    (checkMetrics s).filter Warning.isDisk =
      (if diskUsageThreshold < (s.usedDisk : ℚ) / (s.totalDisk : ℚ) then
        [Warning.diskSpaceLow ((s.totalDisk - s.usedDisk).tdiv 1048576)]
      else []) := by
  rw [checkMetrics_filter_disk, if_pos h]
  split_ifs with hc
  · obtain ⟨-, -, htd, hud, -, -⟩ := hw
    have htd1 := htd.1
    have htd2 := htd.2
    have hud1 := hud.1
    have hud2 := hud.2
    have hq : (9 : ℚ) * (s.totalDisk : ℚ) < (s.usedDisk : ℚ) * 10 := by
      have hT : (0 : ℚ) < (s.totalDisk : ℚ) := by exact_mod_cast h
      simp only [diskUsageThreshold] at hc
      rw [div_lt_div_iff₀ (by norm_num) hT] at hc
      exact hc
    have hz : 9 * s.totalDisk < s.usedDisk * 10 := by exact_mod_cast hq
    rw [wrap64_id (s.totalDisk - s.usedDisk) (by omega) (by omega)]
  · rfl

/-- C6 witness: the record parsed from
`"5.0,1000,100,1048576000,1000000000,1000,100"` yields a disk warning
reporting 46 Mb of free space. -/
theorem disk_warning_iff_witness :
    parseStats "5.0,1000,100,1048576000,1000000000,1000,100".data =
      .ok ⟨5, 1000, 100, 1048576000, 1000000000, 1000, 100⟩ ∧
    (checkMetrics ⟨5, 1000, 100, 1048576000, 1000000000, 1000, 100⟩).filter Warning.isDisk =
      [Warning.diskSpaceLow 46] := by
  constructor
  · decide
  · rw [disk_warning_iff ⟨5, 1000, 100, 1048576000, 1000000000, 1000, 100⟩ (by decide)
      (by decide)]
    decide

/-- C7 counterexample: with `totalNet = 1` and `usedNet = 2^63 - 1` the
condition fires, but the `int64` multiplication by 8 wraps, so the emitted
free-bandwidth value is `16/1000000` Mbit/s rather than the claimed
`(totalNet - usedNet) * 8 / 1000000`. -/
theorem net_warning_overflow_cex :
    (checkMetrics ⟨0, 1, 0, 1, 0, 1, 9223372036854775807⟩).filter Warning.isNet =
      [Warning.netBandwidthHigh (16 / 1000000)] ∧
    (16 / 1000000 : ℚ) ≠ (((1 - 9223372036854775807) * 8 : ℤ) : ℚ) / 1000000 :=
  ⟨by decide, by decide⟩

/-- C7 (amended): with `totalNetCapacity > 0`, fields in `int64` range and
`usedNetCapacity ≤ totalNetCapacity` (so the 64-bit free-bandwidth
computation cannot overflow), the network warning fires iff
`usedNetCapacity/totalNetCapacity > 0.90` and reports
`(totalNetCapacity - usedNetCapacity) * 8 / 1,000,000` Mbit/s. -/
theorem net_warning_value (s : ServerStats) (hw : s.wf) (h : 0 < s.totalNet)
    (hle : s.usedNet ≤ s.totalNet) :
    (checkMetrics s).filter Warning.isNet =
      (if netUsageThreshold < (s.usedNet : ℚ) / (s.totalNet : ℚ) then
        [Warning.netBandwidthHigh ((((s.totalNet - s.usedNet) * 8 : ℤ) : ℚ) / 1000000)]
      else []) := by
  rw [checkMetrics_filter_net, if_pos h]
  split_ifs with hc
  · obtain ⟨-, -, -, -, htn, hun⟩ := hw
    have htn1 := htn.1
    have htn2 := htn.2
    have hun1 := hun.1
    have hun2 := hun.2
    have hq : (9 : ℚ) * (s.totalNet : ℚ) < (s.usedNet : ℚ) * 10 := by
      have hT : (0 : ℚ) < (s.totalNet : ℚ) := by exact_mod_cast h
      simp only [netUsageThreshold] at hc
      rw [div_lt_div_iff₀ (by norm_num) hT] at hc
      exact hc
    have hz : 9 * s.totalNet < s.usedNet * 10 := by exact_mod_cast hq
    rw [wrap64_id (s.totalNet - s.usedNet) (by omega) (by omega),
      wrap64_id ((s.totalNet - s.usedNet) * 8) (by omega) (by omega)]
  · rfl

/-- C7 witness: a 95% network usage with `totalNet = 1000` reports
`400/1000000` Mbit/s of free bandwidth. -/
theorem net_warning_value_witness :
    (checkMetrics ⟨0, 1, 0, 1, 0, 1000, 950⟩).filter Warning.isNet =
      [Warning.netBandwidthHigh (400 / 1000000)] := by
  rw [net_warning_value ⟨0, 1, 0, 1, 0, 1000, 950⟩ (by decide) (by decide) (by decide)]
  decide

/-- C8: the failure counter starts at 0, is reset to 0 by every successful
poll, is incremented by exactly 1 by every failed poll (which also writes one
stderr diagnostic carrying the new count), and the "stats unavailable" notice
is written in a cycle iff the counter after that cycle's update is at least 3
(level-triggered); in particular three consecutive failures from process
start (or right after a success) produce 3 stderr diagnostics and exactly one
notice, emitted in the third cycle, and a fourth failure re-emits it. -/
theorem failure_counter_behavior :
    initialConsecutiveErrors = 0 ∧
    (∀ c stats, pollCycle c (some stats) = (0, ⟨none, false, checkMetrics stats⟩)) ∧
    (∀ c, pollCycle c none =
      (c + 1, ⟨some (c + 1), decide (maxConsecutiveErrors ≤ c + 1), []⟩)) ∧
    (∀ c r, (pollCycle c r).2.unavailableNotice = true ↔
      maxConsecutiveErrors ≤ (pollCycle c r).1) ∧
    runPoll initialConsecutiveErrors [none, none, none] =
      (3, [⟨some 1, false, []⟩, ⟨some 2, false, []⟩, ⟨some 3, true, []⟩]) ∧
    (∀ stats, runPoll 5 [some stats, none, none, none] =
      (3, [⟨none, false, checkMetrics stats⟩, ⟨some 1, false, []⟩, ⟨some 2, false, []⟩,
        ⟨some 3, true, []⟩])) := by
  refine ⟨rfl, fun c stats => rfl, fun c => rfl, fun c r => ?_, by decide, fun stats => rfl⟩
  cases r <;> simp [pollCycle, maxConsecutiveErrors]
